import Mathlib

/-!
# Verification of the guiddemo mock-server subsystem

Shallow embedding of `src/guid_client/client.py`, centred on the
`mock_server` response synthesizers (`read_callback`,
`create_update_callback`, `delete_callback`), the GUID argument
validator (`guid`), the request-body builder of `create_request`, and
the mock-installation decision in `main`.

JSON values are modelled by an inductive type `Json`; Python dicts as
produced by `json.loads` are association lists with unique keys, and
dict assignment / membership are `setKey` / `hasKey`.  `json.dumps` is
`serializeJson` (Python's default separators are `", "` and `": "`;
the strings appearing in this program need no escaping beyond quote
and backslash, which `escapeString` handles).  A Python exception
(e.g. the `IndexError` that `guid[0]` raises on an empty slice) is
modelled by `Option.none`.
-/

/-- JSON values, as produced by Python's `json` module on the data this
program handles (objects, arrays, strings, integers, booleans, null). -/
inductive Json where
  | jnull : Json
  | jbool : Bool → Json
  | jnum : Int → Json
  | jstr : String → Json
  | jarr : List Json → Json
  | jobj : List (String × Json) → Json

/-- A Python dict with string keys, as `json.loads` yields for a JSON
object: an association list in insertion order (keys unique in any dict
that Python can actually produce). -/
abbrev JObj := List (String × Json)

/-- `d[k]` lookup on a Python dict: first matching key. -/
def getKey : JObj → String → Option Json
  | [], _ => none
  | (k, v) :: rest, k0 => if k = k0 then some v else getKey rest k0

/-- `k in d` membership test on a Python dict. -/
def hasKey (o : JObj) (k : String) : Bool :=
  (getKey o k).isSome

/-- `d[k] = v` assignment on a Python dict: replaces the value in place
when the key exists (keeping its position), otherwise appends. -/
def setKey : JObj → String → Json → JObj
  | [], k0, v0 => [(k0, v0)]
  | (k, v) :: rest, k0, v0 =>
      if k = k0 then (k0, v0) :: rest else (k, v) :: setKey rest k0 v0

/-- Decimal digits of a natural number, most significant first. -/
def natToDigits (n : Nat) : List Char :=
  if h : n < 10 then [Char.ofNat (48 + n)]
  else natToDigits (n / 10) ++ [Char.ofNat (48 + n % 10)]
decreasing_by
  exact Nat.div_lt_self (Nat.lt_of_lt_of_le (by decide) (Nat.le_of_not_lt h)) (by decide)

/-- Decimal rendering of an integer, as Python's `json.dumps` prints it. -/
def intRepr : Int → String
  | Int.ofNat m => ⟨natToDigits m⟩
  | Int.negSucc m => "-" ++ ⟨natToDigits (m + 1)⟩

/-- JSON string escaping for one character (quote and backslash; the
strings this program emits contain nothing else that needs escaping). -/
def escapeChar (c : Char) : String :=
  if c = '\\' then "\\\\" else if c = '\"' then "\\\"" else String.singleton c

/-- JSON string escaping. -/
def escapeString (s : String) : String :=
  String.join (s.data.map escapeChar)

mutual

/-- Python's `json.dumps` with its default separators `", "` / `": "`. -/
def serializeJson : Json → String
  | Json.jnull => "null"
  | Json.jbool true => "true"
  | Json.jbool false => "false"
  | Json.jnum n => intRepr n
  | Json.jstr s => "\"" ++ escapeString s ++ "\""
  | Json.jarr xs => "[" ++ String.intercalate ", " (serializeList xs) ++ "]"
  | Json.jobj fs => "\x7b" ++ String.intercalate ", " (serializeFields fs) ++ "\x7d"

/-- Serialization of the elements of a JSON array. -/
def serializeList : List Json → List String
  | [] => []
  | x :: xs => serializeJson x :: serializeList xs

/-- Serialization of the fields of a JSON object. -/
def serializeFields : List (String × Json) → List String
  | [] => []
  | (k, v) :: fs => ("\"" ++ escapeString k ++ "\": " ++ serializeJson v) :: serializeFields fs

end

/-- A string is valid JSON when it is the serialization of some JSON value. -/
def is_valid_json (s : String) : Prop :=
  ∃ j : Json, serializeJson j = s

/-- The response a mock callback hands back through `requests_mock`:
the status code and reason set on `context` (defaults 200 / ""), and
the returned body text. -/
structure MockResponse where
  status : Nat
  reason : String
  body : String
deriving Repr, DecidableEq

/-- `req.path[6:]`: the callbacks' slice that assumes the URI path is
`/guid/<guid>`. -/
def extractGuid (path : String) : String :=
  path.drop 6

/-- The fixed object `read_callback` returns:
`{"guid": guid, "expire": "1234123123123", "user": "foo"}`. -/
def read_obj (guid : String) : JObj :=
  [("guid", Json.jstr guid), ("expire", Json.jstr "1234123123123"), ("user", Json.jstr "foo")]

/-- `read_callback`: mocks READ calls.  Extracts the GUID from the path,
forces status 503 when it starts with '9' and 404 when it starts with
'8', and returns the fixed JSON body.  `none` models the `IndexError`
that `guid[0]` raises when the extracted GUID is empty. -/
def read_callback (path : String) : Option MockResponse :=
  let guid := extractGuid path
  if guid = "" then none
  else
    let st : Nat × String := (200, "")
    let st := if guid.front = '9' then (503, "mock server error test") else st
    let st := if guid.front = '8' then (404, "mock client error test") else st
    some ⟨st.1, st.2, serializeJson (Json.jobj (read_obj guid))⟩

/-- The GUID `create_update_callback` resolves: `"77777777777777"` by
default, overridden by `req.path[6:]` when `len(req.path) > 5`. -/
def create_update_guid (path : String) : String :=
  if path.length > 5 then path.drop 6 else "77777777777777"

/-- The response dict `create_update_callback` builds from the request
body: back-fill `expire` and `user` when absent, then assign `guid`. -/
def create_update_obj (path : String) (body : JObj) : JObj :=
  let response := body
  let response := if hasKey response "expire" then response
                  else setKey response "expire" (Json.jstr "999999999999")
  let response := if hasKey response "user" then response
                  else setKey response "user" (Json.jstr "mock generated")
  setKey response "guid" (Json.jstr (create_update_guid path))

/-- `create_update_callback`: mocks CREATE/UPDATE calls.  The request
body (already parsed by `json.loads`) is echoed with `expire`/`user`
back-filled when absent and `guid` set from the resolved GUID; status
follows the GUID's first character.  `none` models the `IndexError`
on an empty resolved GUID. -/
def create_update_callback (path : String) (body : JObj) : Option MockResponse :=
  let guid := create_update_guid path
  let response := create_update_obj path body
  if guid = "" then none
  else
    let st : Nat × String := (200, "")
    let st := if guid.front = '9' then (503, "mock server error test") else st
    let st := if guid.front = '8' then (404, "mock client error test") else st
    some ⟨st.1, st.2, serializeJson (Json.jobj response)⟩

/-- `delete_callback`: mocks DELETE calls.  Same status rule, empty
body.  `none` models the `IndexError` on an empty extracted GUID. -/
def delete_callback (path : String) : Option MockResponse :=
  let guid := extractGuid path
  if guid = "" then none
  else
    let st : Nat × String := (200, "")
    let st := if guid.front = '9' then (503, "mock server error test") else st
    let st := if guid.front = '8' then (404, "mock client error test") else st
    some ⟨st.1, st.2, ""⟩

/-- The status mapping the spec states: a pure function of the GUID's
first character, '9' → 503, '8' → 404, anything else → 200. -/
def statusOfChar (c : Char) : Nat :=
  if c = '9' then 503 else if c = '8' then 404 else 200

/-- HTTP methods the mock adapter registers routes for. -/
inductive Method where
  | GET : Method
  | POST : Method
  | DELETE : Method
deriving Repr, DecidableEq

/-- One intercepted request: method, path, and parsed JSON-object body
(ignored by the GET and DELETE callbacks, as in the source). -/
abbrev MockRequest := Method × String × JObj

/-- The request matcher: `adapter.register_uri` binds GET to
`read_callback`, POST to `create_update_callback` and DELETE to
`delete_callback`. -/
def dispatch : MockRequest → Option MockResponse
  | (Method.GET, p, _) => read_callback p
  | (Method.POST, p, b) => create_update_callback p b
  | (Method.DELETE, p, _) => delete_callback p

/-- Running a sequence of intercepted requests through the mock.  The
callbacks close over no mutable state (no globals, no counters, no
clocks), so each response is a function of its own request alone. -/
def runMock (reqs : List MockRequest) : List (Option MockResponse) :=
  reqs.map dispatch

/-- Python's `str.startswith`, as a prefix test on the character
sequence. -/
def startswith (s pre : String) : Bool :=
  pre.data.isPrefixOf s.data

/-- The observable phases of `main` after argument parsing. -/
inductive Step where
  | installMock : Step
  | dispatchRequest : Step
deriving Repr, DecidableEq

/-- `main` after parsing: install the mock adapter exactly when the URL
starts with `"mock://"`, then dispatch the single request
(`parsed.func(parsed)`). -/
def main_steps (url : String) : List Step :=
  (if startswith url "mock://" then [Step.installMock] else []) ++ [Step.dispatchRequest]

/-- `string.hexdigits.upper()`: the character set the `guid` validator
tests membership in. -/
def hexdigitsUpper : List Char :=
  "0123456789ABCDEFABCDEF".data

/-- The `guid` argparse validator: 32 characters, all in
`string.hexdigits.upper()`; `Except.error` models
`argparse.ArgumentTypeError`. -/
def guid_check (g : String) : Except String String :=
  if g.length ≠ 32 then Except.error "GUID needs to be 32 characters"
  else if ¬ (g.data.all (fun x => hexdigitsUpper.contains x)) then
    Except.error "GUID is not a upper-case hexadecimal number"
  else Except.ok g

/-- The body `create_request` sends: `{"user": args.user}` without a
GUID, `{"user": args.user, "expire": args.expire}` with one (where an
absent `--expire` is Python `None`, serialized as JSON null). -/
def create_request_body (user : String) (guid : Option String) (expire : Option String) : JObj :=
  match guid with
  | none => [("user", Json.jstr user)]
  | some _ =>
      [("user", Json.jstr user),
       ("expire", match expire with | none => Json.jnull | some e => Json.jstr e)]

/-! ## Helper lemmas -/

theorem string_eq_empty_iff (s : String) : s = "" ↔ s.data = [] := by
  constructor
  · intro h; rw [h]
  · intro h; cases s; simp_all

theorem string_length_drop (s : String) (n : Nat) : (s.drop n).length = s.length - n := by
  show (s.drop n).data.length = s.data.length - n
  rw [String.data_drop, List.length_drop]

theorem getKey_setKey_self (o : JObj) (k : String) (v : Json) :
    getKey (setKey o k v) k = some v := by
  induction o with
  | nil => simp [setKey, getKey]
  | cons p rest ih =>
    obtain ⟨k1, v1⟩ := p
    by_cases h : k1 = k
    · simp [setKey, h, getKey]
    · simp [setKey, h, getKey, ih]

theorem getKey_setKey_ne (o : JObj) (k k0 : String) (v : Json) (h : k0 ≠ k) :
    getKey (setKey o k v) k0 = getKey o k0 := by
  induction o with
  | nil =>
    have hne : ¬ k = k0 := fun he => h he.symm
    simp [setKey, getKey, hne]
  | cons p rest ih =>
    obtain ⟨k1, v1⟩ := p
    by_cases h1 : k1 = k
    · subst h1
      have hne : ¬ k1 = k0 := fun he => h he.symm
      simp [setKey, getKey, hne]
    · simp [setKey, h1, getKey, ih]

theorem hasKey_false_iff (o : JObj) (k : String) :
    hasKey o k = false ↔ getKey o k = none := by
  unfold hasKey
  cases getKey o k <;> simp

theorem hasKey_setKey_self (o : JObj) (k : String) (v : Json) :
    hasKey (setKey o k v) k = true := by
  unfold hasKey
  rw [getKey_setKey_self]
  rfl

theorem hasKey_setKey_ne (o : JObj) (k k0 : String) (v : Json) (h : k0 ≠ k) :
    hasKey (setKey o k v) k0 = hasKey o k0 := by
  unfold hasKey
  rw [getKey_setKey_ne o k k0 v h]

theorem natToDigits_ne_nil (n : Nat) : natToDigits n ≠ [] := by
  rw [natToDigits]
  split <;> simp

theorem serializeJson_ne_empty (j : Json) : serializeJson j ≠ "" := by
  have hdata : ∀ s : String, s.data ≠ [] → s ≠ "" := by
    intro s h he
    exact h ((string_eq_empty_iff s).mp he)
  cases j with
  | jnull => decide
  | jbool b => cases b <;> decide
  | jnum n =>
    cases n with
    | ofNat m =>
      apply hdata
      simpa [serializeJson, intRepr] using natToDigits_ne_nil m
    | negSucc m =>
      apply hdata
      simp [serializeJson, intRepr, String.data_append]
  | jstr s =>
    apply hdata
    simp [serializeJson, String.data_append]
  | jarr xs =>
    apply hdata
    simp [serializeJson, String.data_append]
  | jobj fs =>
    apply hdata
    simp [serializeJson, String.data_append]

theorem status_sel (g : String) :
    (if g.front = '8' then ((404 : Nat), "mock client error test")
     else if g.front = '9' then ((503 : Nat), "mock server error test")
     else ((200 : Nat), "")).1 = statusOfChar g.front := by
  unfold statusOfChar
  by_cases h8 : g.front = '8'
  · have h9 : ¬ g.front = '9' := by rw [h8]; decide
    simp [h8, h9]
  · by_cases h9 : g.front = '9' <;> simp [h8, h9]

theorem cuo_guid (p : String) (b : JObj) :
    getKey (create_update_obj p b) "guid" = some (Json.jstr (create_update_guid p)) := by
  unfold create_update_obj
  exact getKey_setKey_self _ _ _

theorem cuo_other (p : String) (b : JObj) (k : String)
    (h1 : k ≠ "guid") (h2 : k ≠ "user") (h3 : k ≠ "expire") :
    getKey (create_update_obj p b) k = getKey b k := by
  unfold create_update_obj
  rw [getKey_setKey_ne _ _ _ _ h1]
  by_cases he : hasKey b "expire"
  · rw [if_pos he]
    by_cases hu : hasKey b "user"
    · rw [if_pos hu]
    · rw [if_neg hu, getKey_setKey_ne _ _ _ _ h2]
  · rw [if_neg he]
    have hu : hasKey (setKey b "expire" (Json.jstr "999999999999")) "user" = hasKey b "user" :=
      hasKey_setKey_ne _ _ _ _ (by decide)
    by_cases hu0 : hasKey b "user"
    · rw [hu, if_pos hu0, getKey_setKey_ne _ _ _ _ h3]
    · rw [hu, if_neg hu0, getKey_setKey_ne _ _ _ _ h2, getKey_setKey_ne _ _ _ _ h3]

theorem cuo_user_present (p : String) (b : JObj) (h : hasKey b "user" = true) :
    getKey (create_update_obj p b) "user" = getKey b "user" := by
  unfold create_update_obj
  rw [getKey_setKey_ne _ _ _ _ (by decide)]
  by_cases he : hasKey b "expire"
  · rw [if_pos he, if_pos h]
  · rw [if_neg he]
    have hu : hasKey (setKey b "expire" (Json.jstr "999999999999")) "user" = hasKey b "user" :=
      hasKey_setKey_ne _ _ _ _ (by decide)
    rw [hu, if_pos h, getKey_setKey_ne _ _ _ _ (by decide)]

theorem cuo_user_absent (p : String) (b : JObj) (h : hasKey b "user" = false) :
    getKey (create_update_obj p b) "user" = some (Json.jstr "mock generated") := by
  unfold create_update_obj
  rw [getKey_setKey_ne _ _ _ _ (by decide)]
  have hnu : ¬ (hasKey b "user" = true) := by rw [h]; decide
  by_cases he : hasKey b "expire"
  · rw [if_pos he, if_neg hnu, getKey_setKey_self]
  · rw [if_neg he]
    have hnu2 : ¬ (hasKey (setKey b "expire" (Json.jstr "999999999999")) "user" = true) := by
      rw [hasKey_setKey_ne _ _ _ _ (by decide), h]; decide
    rw [if_neg hnu2, getKey_setKey_self]

theorem cuo_expire_present (p : String) (b : JObj) (h : hasKey b "expire" = true) :
    getKey (create_update_obj p b) "expire" = getKey b "expire" := by
  unfold create_update_obj
  rw [getKey_setKey_ne _ _ _ _ (by decide), if_pos h]
  by_cases hu : hasKey b "user"
  · rw [if_pos hu]
  · rw [if_neg hu, getKey_setKey_ne _ _ _ _ (by decide)]

theorem cuo_expire_absent (p : String) (b : JObj) (h : hasKey b "expire" = false) :
    getKey (create_update_obj p b) "expire" = some (Json.jstr "999999999999") := by
  unfold create_update_obj
  rw [getKey_setKey_ne _ _ _ _ (by decide)]
  have hne : ¬ (hasKey b "expire" = true) := by rw [h]; decide
  rw [if_neg hne]
  have hu : hasKey (setKey b "expire" (Json.jstr "999999999999")) "user" = hasKey b "user" :=
    hasKey_setKey_ne _ _ _ _ (by decide)
  rw [hu]
  by_cases hu0 : hasKey b "user"
  · rw [if_pos hu0, getKey_setKey_self]
  · rw [if_neg hu0, getKey_setKey_ne _ _ _ _ (by decide), getKey_setKey_self]

/-! ## Claims -/

/-- C1: for every intercepted request whose path carries a GUID segment
(and, for CREATE/UPDATE, for the resolved GUID whether taken from the
path or synthesized as the placeholder), the response status code is a
pure function of the GUID's first character — '9' yields 503, '8'
yields 404, anything else 200 — and the same mapping `statusOfChar` is
applied by the READ, CREATE/UPDATE and DELETE synthesizers alike. -/
theorem c1_status_first_char (p : String) (b : JObj) :
    (extractGuid p ≠ "" →
      (read_callback p).map MockResponse.status
          = some (statusOfChar (extractGuid p).front)
      ∧ (delete_callback p).map MockResponse.status
          = some (statusOfChar (extractGuid p).front))
    ∧ (create_update_guid p ≠ "" →
      (create_update_callback p b).map MockResponse.status
          = some (statusOfChar (create_update_guid p).front)) := by
  refine ⟨fun h => ⟨?_, ?_⟩, fun h => ?_⟩
  · simp only [read_callback, if_neg h, Option.map_some']
    exact congrArg some (status_sel (extractGuid p))
  · simp only [delete_callback, if_neg h, Option.map_some']
    exact congrArg some (status_sel (extractGuid p))
  · simp only [create_update_callback, if_neg h, Option.map_some']
    exact congrArg some (status_sel (create_update_guid p))

/-- Witness for C1 at the concrete path `/guid/9AB`. -/
theorem c1_status_first_char_witness :
    (read_callback "/guid/9AB").map MockResponse.status
        = some (statusOfChar (extractGuid "/guid/9AB").front)
    ∧ (delete_callback "/guid/9AB").map MockResponse.status
        = some (statusOfChar (extractGuid "/guid/9AB").front)
    ∧ (create_update_callback "/guid/9AB" []).map MockResponse.status
        = some (statusOfChar (create_update_guid "/guid/9AB").front) :=
  ⟨((c1_status_first_char "/guid/9AB" []).1 (by decide)).1,
   ((c1_status_first_char "/guid/9AB" []).1 (by decide)).2,
   (c1_status_first_char "/guid/9AB" []).2 (by decide)⟩

/-- C2 counterexample: the DELETE synthesizer answers `/guid/7ABC` with
status 200 and body `""`, and the empty string is not valid JSON — so
not every synthesized response body is valid JSON. -/
theorem c2_counterexample :
    delete_callback "/guid/7ABC" = some ⟨200, "", ""⟩ ∧ ¬ is_valid_json "" := by
  refine ⟨rfl, ?_⟩
  rintro ⟨j, hj⟩
  exact serializeJson_ne_empty j hj

/-- C2 amended: every response body the READ and CREATE/UPDATE
synthesizers produce is valid JSON; the DELETE synthesizer's body is
the empty string, which is not valid JSON. -/
theorem c2_amended (p : String) (b : JObj) :
    (∀ r, read_callback p = some r → is_valid_json r.body)
    ∧ (∀ r, create_update_callback p b = some r → is_valid_json r.body)
    ∧ (∀ r, delete_callback p = some r → r.body = "" ∧ ¬ is_valid_json r.body) := by
  refine ⟨?_, ?_, ?_⟩
  · intro r hr
    unfold read_callback at hr
    by_cases hg : extractGuid p = ""
    · rw [if_pos hg] at hr
      cases hr
    · rw [if_neg hg] at hr
      cases hr
      exact ⟨Json.jobj (read_obj (extractGuid p)), rfl⟩
  · intro r hr
    unfold create_update_callback at hr
    by_cases hg : create_update_guid p = ""
    · rw [if_pos hg] at hr
      cases hr
    · rw [if_neg hg] at hr
      cases hr
      exact ⟨Json.jobj (create_update_obj p b), rfl⟩
  · intro r hr
    unfold delete_callback at hr
    by_cases hg : extractGuid p = ""
    · rw [if_pos hg] at hr
      cases hr
    · rw [if_neg hg] at hr
      cases hr
      refine ⟨rfl, ?_⟩
      rintro ⟨j, hj⟩
      exact serializeJson_ne_empty j hj

/-- Witness for C2's amended theorem at the concrete path `/guid/7A`. -/
theorem c2_amended_witness :
    is_valid_json (MockResponse.body ⟨200, "",
        "\x7b\"guid\": \"7A\", \"expire\": \"1234123123123\", \"user\": \"foo\"\x7d"⟩)
    ∧ (MockResponse.body ⟨200, "", ""⟩ = "" ∧ ¬ is_valid_json (MockResponse.body ⟨200, "", ""⟩)) :=
  ⟨(c2_amended "/guid/7A" []).1 _ rfl,
   (c2_amended "/guid/7A" []).2.2 _ rfl⟩

/-- C4: every READ response body is exactly the serialization of
`{guid: <id>, expire: "1234123123123", user: "foo"}` with `<id>` the
path segment after `/guid/`, whatever the status code turns out to be
(200, 404 or 503 — including the fault-injection cases). -/
theorem c4_read_body (p : String) (r : MockResponse) (h : read_callback p = some r) :
    r.body = serializeJson (Json.jobj (read_obj (extractGuid p)))
    ∧ (r.status = 200 ∨ r.status = 404 ∨ r.status = 503) := by
  unfold read_callback at h
  by_cases hg : extractGuid p = ""
  · rw [if_pos hg] at h
    cases h
  · rw [if_neg hg] at h
    cases h
    refine ⟨rfl, ?_⟩
    by_cases h8 : (extractGuid p).front = '8'
    · simp [h8]
    · by_cases h9 : (extractGuid p).front = '9' <;> simp [h8, h9]

/-- Witness for C4: READ on GUID `9AAAAAAAAAAAAAAAAAAAAAAAAAAAAAAA`
yields status 503 with the well-formed JSON body the spec displays. -/
theorem c4_read_body_witness :
    MockResponse.body ⟨503, "mock server error test",
        "\x7b\"guid\": \"9AAAAAAAAAAAAAAAAAAAAAAAAAAAAAAA\", \"expire\": \"1234123123123\", \"user\": \"foo\"\x7d"⟩
      = serializeJson (Json.jobj (read_obj (extractGuid "/guid/9AAAAAAAAAAAAAAAAAAAAAAAAAAAAAAA")))
    ∧ (MockResponse.status ⟨503, "mock server error test",
        "\x7b\"guid\": \"9AAAAAAAAAAAAAAAAAAAAAAAAAAAAAAA\", \"expire\": \"1234123123123\", \"user\": \"foo\"\x7d"⟩ = 200
      ∨ MockResponse.status ⟨503, "mock server error test",
        "\x7b\"guid\": \"9AAAAAAAAAAAAAAAAAAAAAAAAAAAAAAA\", \"expire\": \"1234123123123\", \"user\": \"foo\"\x7d"⟩ = 404
      ∨ MockResponse.status ⟨503, "mock server error test",
        "\x7b\"guid\": \"9AAAAAAAAAAAAAAAAAAAAAAAAAAAAAAA\", \"expire\": \"1234123123123\", \"user\": \"foo\"\x7d"⟩ = 503) :=
  c4_read_body "/guid/9AAAAAAAAAAAAAAAAAAAAAAAAAAAAAAA" _ rfl

/-- C6: every DELETE response has an empty body, for every GUID and
every resulting status code (200, 404 or 503). -/
theorem c6_delete_empty_body (p : String) (r : MockResponse) (h : delete_callback p = some r) :
    r.body = "" ∧ (r.status = 200 ∨ r.status = 404 ∨ r.status = 503) := by
  unfold delete_callback at h
  by_cases hg : extractGuid p = ""
  · rw [if_pos hg] at h
    cases h
  · rw [if_neg hg] at h
    cases h
    refine ⟨rfl, ?_⟩
    by_cases h8 : (extractGuid p).front = '8'
    · simp [h8]
    · by_cases h9 : (extractGuid p).front = '9' <;> simp [h8, h9]

/-- Witness for C6: DELETE on `/guid/8FF` yields status 404 and an
empty body. -/
theorem c6_delete_empty_body_witness :
    MockResponse.body ⟨404, "mock client error test", ""⟩ = ""
    ∧ (MockResponse.status ⟨404, "mock client error test", ""⟩ = 200
      ∨ MockResponse.status ⟨404, "mock client error test", ""⟩ = 404
      ∨ MockResponse.status ⟨404, "mock client error test", ""⟩ = 503) :=
  c6_delete_empty_body "/guid/8FF" _ rfl

/-- C3 counterexample: a CREATE/UPDATE request on `/guid/7ABC` whose
JSON-object body already carries `"guid": "DEAD"` does not get that
caller-supplied field echoed unchanged — the synthesizer overwrites it
with the GUID resolved from the path. -/
theorem c3_counterexample :
    getKey [("guid", Json.jstr "DEAD")] "guid" = some (Json.jstr "DEAD")
    ∧ getKey (create_update_obj "/guid/7ABC" [("guid", Json.jstr "DEAD")]) "guid"
        = some (Json.jstr "7ABC")
    ∧ Json.jstr "DEAD" ≠ Json.jstr "7ABC" := by
  refine ⟨rfl, rfl, ?_⟩
  intro hcontra
  injection hcontra with hs
  exact absurd hs (by decide)

/-- C3 amended: the CREATE/UPDATE response body is the input body with
the `guid` field set from the path segment after `/guid/` (or the
fixed placeholder without one) — overwriting any caller-supplied
`guid` — and with `user` / `expire` back-filled with fixed placeholder
values exactly when missing; every caller-supplied field other than
`guid` is echoed unchanged and never dropped. -/
theorem c3_create_update_echo (p : String) (b : JObj) :
    getKey (create_update_obj p b) "guid" = some (Json.jstr (create_update_guid p))
    ∧ (∀ k, k ≠ "guid" → k ≠ "user" → k ≠ "expire" →
        getKey (create_update_obj p b) k = getKey b k)
    ∧ (hasKey b "user" = true →
        getKey (create_update_obj p b) "user" = getKey b "user")
    ∧ (hasKey b "user" = false →
        getKey (create_update_obj p b) "user" = some (Json.jstr "mock generated"))
    ∧ (hasKey b "expire" = true →
        getKey (create_update_obj p b) "expire" = getKey b "expire")
    ∧ (hasKey b "expire" = false →
        getKey (create_update_obj p b) "expire" = some (Json.jstr "999999999999"))
    ∧ (∀ r, create_update_callback p b = some r →
        r.body = serializeJson (Json.jobj (create_update_obj p b))) := by
  refine ⟨cuo_guid p b, cuo_other p b, cuo_user_present p b, cuo_user_absent p b,
    cuo_expire_present p b, cuo_expire_absent p b, ?_⟩
  intro r hr
  unfold create_update_callback at hr
  by_cases hg : create_update_guid p = ""
  · rw [if_pos hg] at hr
    cases hr
  · rw [if_neg hg] at hr
    cases hr
    rfl

/-- Witness for C3's amended theorem at the spec's UPDATE example:
GUID `7AAAAAAAAAAAAAAAAAAAAAAAAAAAAAAA`, body
`{"expire": "2000000000"}`. -/
theorem c3_create_update_echo_witness :
    getKey (create_update_obj "/guid/7AAAAAAAAAAAAAAAAAAAAAAAAAAAAAAA"
        [("expire", Json.jstr "2000000000")]) "guid"
      = some (Json.jstr (create_update_guid "/guid/7AAAAAAAAAAAAAAAAAAAAAAAAAAAAAAA"))
    ∧ getKey (create_update_obj "/guid/7AAAAAAAAAAAAAAAAAAAAAAAAAAAAAAA"
        [("expire", Json.jstr "2000000000")]) "user" = some (Json.jstr "mock generated")
    ∧ getKey (create_update_obj "/guid/7AAAAAAAAAAAAAAAAAAAAAAAAAAAAAAA"
        [("expire", Json.jstr "2000000000")]) "expire"
      = getKey [("expire", Json.jstr "2000000000")] "expire" :=
  ⟨(c3_create_update_echo "/guid/7AAAAAAAAAAAAAAAAAAAAAAAAAAAAAAA"
      [("expire", Json.jstr "2000000000")]).1,
   (c3_create_update_echo "/guid/7AAAAAAAAAAAAAAAAAAAAAAAAAAAAAAA"
      [("expire", Json.jstr "2000000000")]).2.2.2.1 rfl,
   (c3_create_update_echo "/guid/7AAAAAAAAAAAAAAAAAAAAAAAAAAAAAAA"
      [("expire", Json.jstr "2000000000")]).2.2.2.2.1 rfl⟩

/-- C5: every READ and CREATE/UPDATE response body carries the three
keys `guid`, `user` and `expire`; whenever the request omitted `user`
or `expire` the value is the fixed placeholder string; and in the
request the client itself builds for CREATE with a caller-supplied
GUID (body `{"user": u, "expire": null}`) the JSON-null `expire` and
the caller's `user` are present and echoed as sent. -/
theorem c5_keys_always_present (p g u : String) (b : JObj) :
    (hasKey (read_obj g) "guid" = true ∧ hasKey (read_obj g) "expire" = true
      ∧ hasKey (read_obj g) "user" = true)
    ∧ (hasKey (create_update_obj p b) "guid" = true
      ∧ hasKey (create_update_obj p b) "expire" = true
      ∧ hasKey (create_update_obj p b) "user" = true)
    ∧ (hasKey b "user" = false →
        getKey (create_update_obj p b) "user" = some (Json.jstr "mock generated"))
    ∧ (hasKey b "expire" = false →
        getKey (create_update_obj p b) "expire" = some (Json.jstr "999999999999"))
    ∧ (getKey (create_update_obj p (create_request_body u (some g) none)) "user"
        = some (Json.jstr u))
    ∧ (getKey (create_update_obj p (create_request_body u (some g) none)) "expire"
        = some Json.jnull) := by
  refine ⟨⟨rfl, rfl, rfl⟩, ⟨?_, ?_, ?_⟩, cuo_user_absent p b, cuo_expire_absent p b, ?_, ?_⟩
  · unfold hasKey
    rw [cuo_guid]
    rfl
  · by_cases he : hasKey b "expire"
    · unfold hasKey
      rw [cuo_expire_present p b he]
      exact he
    · have he2 : hasKey b "expire" = false := by simpa using he
      unfold hasKey
      rw [cuo_expire_absent p b he2]
      rfl
  · by_cases hu : hasKey b "user"
    · unfold hasKey
      rw [cuo_user_present p b hu]
      exact hu
    · have hu2 : hasKey b "user" = false := by simpa using hu
      unfold hasKey
      rw [cuo_user_absent p b hu2]
      rfl
  · rw [cuo_user_present p (create_request_body u (some g) none) rfl]
    rfl
  · rw [cuo_expire_present p (create_request_body u (some g) none) rfl]
    rfl

/-- Witness for C5 at path `/guid/7AB` with an empty body and with the
client-built CREATE body `{"user": "alice", "expire": null}`. -/
theorem c5_keys_always_present_witness :
    getKey (create_update_obj "/guid/7AB" []) "user" = some (Json.jstr "mock generated")
    ∧ getKey (create_update_obj "/guid/7AB" []) "expire" = some (Json.jstr "999999999999")
    ∧ getKey (create_update_obj "/guid/7AB" (create_request_body "alice" (some "7AB") none))
        "expire" = some Json.jnull :=
  ⟨(c5_keys_always_present "/guid/7AB" "7AB" "alice" []).2.2.1 rfl,
   (c5_keys_always_present "/guid/7AB" "7AB" "alice" []).2.2.2.1 rfl,
   (c5_keys_always_present "/guid/7AB" "7AB" "alice" []).2.2.2.2.2⟩

/-- C7: the synthesizers are deterministic — in any run of intercepted
requests, two positions holding the identical (method, path, body)
input receive identical responses, byte-identical bodies included; no
cross-call state influences the result. -/
theorem c7_deterministic (reqs : List MockRequest) (i j : Nat)
    (h : reqs[i]? = reqs[j]?) :
    (runMock reqs)[i]? = (runMock reqs)[j]? := by
  unfold runMock
  rw [List.getElem?_map, List.getElem?_map, h]

/-- Witness for C7: a run repeating the READ of `/guid/9A` at positions
0 and 2 answers both identically. -/
theorem c7_deterministic_witness :
    (runMock [(Method.GET, "/guid/9A", ([] : JObj)), (Method.DELETE, "/guid/8B", []),
        (Method.GET, "/guid/9A", [])])[0]?
      = (runMock [(Method.GET, "/guid/9A", ([] : JObj)), (Method.DELETE, "/guid/8B", []),
        (Method.GET, "/guid/9A", [])])[2]? :=
  c7_deterministic [(Method.GET, "/guid/9A", ([] : JObj)), (Method.DELETE, "/guid/8B", []),
    (Method.GET, "/guid/9A", [])] 0 2 rfl

/-- C9: the mock adapter is installed exactly when the configured URL
starts with `"mock://"`, it is installed at most once per invocation,
and any installation precedes the dispatch of the single outbound
request. -/
theorem c9_mock_install (url : String) :
    ((Step.installMock ∈ main_steps url) ↔ startswith url "mock://" = true)
    ∧ (main_steps url).count Step.installMock ≤ 1
    ∧ (∀ i j : Nat, (main_steps url)[i]? = some Step.installMock →
        (main_steps url)[j]? = some Step.dispatchRequest → i < j) := by
  unfold main_steps
  by_cases h : startswith url "mock://"
  · rw [if_pos h]
    refine ⟨by simp [h], by decide, ?_⟩
    intro i j hi hj
    match i, j with
    | 0, 0 => simp at hj
    | 0, 1 => decide
    | 0, j + 2 => simp at hj
    | 1, _ => simp at hi
    | i + 2, _ => simp at hi
  · rw [if_neg h]
    refine ⟨by simp [h], by decide, ?_⟩
    intro i j hi hj
    match i with
    | 0 => simp at hi
    | i + 1 => simp at hi

/-- Witness for C9 at the URL `mock://test.net` the source assumes. -/
theorem c9_mock_install_witness :
    (Step.installMock ∈ main_steps "mock://test.net") ∧ (0 : Nat) < 1 :=
  ⟨(c9_mock_install "mock://test.net").1.mpr (by decide),
   (c9_mock_install "mock://test.net").2.2 0 1 (by decide) (by decide)⟩

/-- C10: a CREATE on the bare path `/guid` resolves the fixed
placeholder GUID `"77777777777777"` — 14 characters, not a 32-character
GUID — whose first character '7' makes every such response status 200;
503 and 404 are unreachable there. -/
theorem c10_bare_create_placeholder (b : JObj) :
    create_update_guid "/guid" = "77777777777777"
    ∧ ("77777777777777" : String).length = 14
    ∧ ("77777777777777" : String).length ≠ 32
    ∧ (∀ r, create_update_callback "/guid" b = some r →
        r.status = 200 ∧ r.status ≠ 503 ∧ r.status ≠ 404) := by
  refine ⟨rfl, rfl, by decide, ?_⟩
  intro r hr
  unfold create_update_callback at hr
  rw [if_neg (by decide)] at hr
  cases hr
  refine ⟨rfl, fun hc => ?_, fun hc => ?_⟩
  · have hc2 : (200 : Nat) = 503 := hc
    exact absurd hc2 (by decide)
  · have hc2 : (200 : Nat) = 404 := hc
    exact absurd hc2 (by decide)

/-- Witness for C10 with an empty request body. -/
theorem c10_bare_create_placeholder_witness :
    MockResponse.status ⟨200, "",
        serializeJson (Json.jobj (create_update_obj "/guid" []))⟩ = 200
    ∧ MockResponse.status ⟨200, "",
        serializeJson (Json.jobj (create_update_obj "/guid" []))⟩ ≠ 503
    ∧ MockResponse.status ⟨200, "",
        serializeJson (Json.jobj (create_update_obj "/guid" []))⟩ ≠ 404 :=
  (c10_bare_create_placeholder []).2.2.2 _ rfl

theorem hexUpper_mem_iff (c : Char) :
    c ∈ hexdigitsUpper ↔ c ∈ "0123456789ABCDEF".data := by
  constructor <;> intro h
  · fin_cases h <;> decide
  · fin_cases h <;> decide

/-- C8: the GUID argument validator accepts a string, returning it
unchanged, exactly when it has 32 characters all drawn from
`[0-9A-F]`; on every other string it raises an argument-type error
(`Except.error`), before any network or mock activity. -/
theorem c8_guid_validator (g : String) :
    (guid_check g = Except.ok g ↔
      (g.length = 32 ∧ ∀ c ∈ g.data, c ∈ "0123456789ABCDEF".data))
    ∧ (guid_check g ≠ Except.ok g → ∃ msg, guid_check g = Except.error msg) := by
  have hall : (g.data.all (fun x => hexdigitsUpper.contains x) = true)
      ↔ (∀ c ∈ g.data, c ∈ "0123456789ABCDEF".data) := by
    rw [List.all_eq_true]
    constructor <;> intro hh c hc
    · exact (hexUpper_mem_iff c).mp (List.elem_iff.mp (hh c hc))
    · exact List.elem_iff.mpr ((hexUpper_mem_iff c).mpr (hh c hc))
  unfold guid_check
  by_cases hl : g.length = 32
  · rw [if_neg (by simp [hl])]
    by_cases ha : g.data.all (fun x => hexdigitsUpper.contains x)
    · rw [if_neg (not_not_intro ha)]
      refine ⟨⟨fun _ => ⟨hl, hall.mp ha⟩, fun _ => rfl⟩, fun hne => absurd rfl hne⟩
    · rw [if_pos ha]
      refine ⟨⟨fun hcontra => Except.noConfusion hcontra, ?_⟩, fun _ => ⟨_, rfl⟩⟩
      rintro ⟨hlen, hmem⟩
      exact absurd (hall.mpr hmem) ha
  · rw [if_pos hl]
    refine ⟨⟨fun hcontra => Except.noConfusion hcontra, ?_⟩, fun _ => ⟨_, rfl⟩⟩
    rintro ⟨hlen, _⟩
    exact absurd hlen hl

/-- Witness for C8: the 32-character uppercase-hex string is accepted
unchanged; the string `"ZZ"` is rejected with an error. -/
theorem c8_guid_validator_witness :
    guid_check "7AAAAAAAAAAAAAAAAAAAAAAAAAAAAAAA"
        = Except.ok "7AAAAAAAAAAAAAAAAAAAAAAAAAAAAAAA"
    ∧ ∃ msg, guid_check "ZZ" = Except.error msg :=
  ⟨(c8_guid_validator "7AAAAAAAAAAAAAAAAAAAAAAAAAAAAAAA").1.mpr ⟨rfl, by decide⟩,
   (c8_guid_validator "ZZ").2 (fun hcontra => Except.noConfusion hcontra)⟩
